import Mathlib

/-!
Shallow embedding of `src/streamlit_app.py` (TIMSS 2023 dashboard).

A pandas DataFrame is modelled as a `Table`: a list of column names plus a
list of rows, each row an association list from column name to an optional
rational (`none` models NaN / a missing value).  Library calls made by the
script (`pd.merge`, `DataFrame.mean(axis=1)`, `df[cols]`, `dropna`,
`Series.mean`, `Series.median`) are embedded with pandas semantics; each
embedding carries a comment naming the pandas behaviour it reflects.
-/

/-- Kernel-reducible `str.startswith(pre)` over the character lists. -/
def strStartsWith (s pre : String) : Bool :=
  pre.data.isPrefixOf s.data

/-- Kernel-reducible `str.endswith(suf)` over the character lists. -/
def strEndsWith (s suf : String) : Bool :=
  suf.data.isSuffixOf s.data

/-- Fuel-driven worker for `strReplace` (structural recursion on the fuel so
that it reduces in the kernel; the fuel is the length of the scanned list,
enough since every step consumes at least one character). -/
def replaceAux (pat rep : List Char) : Nat → List Char → List Char
  | _, [] => []
  | 0, l => l
  | Nat.succ n, c :: cs =>
    if pat.isPrefixOf (c :: cs) then rep ++ replaceAux pat rep n ((c :: cs).drop pat.length)
    else c :: replaceAux pat rep n cs

/-- Kernel-reducible `str.replace(pat, rep)` for a non-empty pattern:
replace every non-overlapping occurrence, scanning left to right. -/
def strReplace (s pat rep : String) : String :=
  ⟨replaceAux pat.data rep.data s.data.length s.data⟩

/-- Kernel-reducible rational addition (Batteries marks `Rat.add` as
irreducible, which blocks `decide` on concrete tables; `qadd_eq` below shows
this agrees with `+`). -/
def qadd (a b : ℚ) : ℚ := mkRat (a.num * b.den + b.num * a.den) (a.den * b.den)

/-- Kernel-reducible sum of a list of rationals (agrees with `List.sum`). -/
def qsum (l : List ℚ) : ℚ := l.foldr qadd 0

/-- Kernel-reducible division of a rational by a natural number (agrees
with `/`). -/
def qdiv (a : ℚ) (n : Nat) : ℚ := mkRat a.num (a.den * n)

/-- Kernel-reducible comparison of rationals (agrees with `≤`). -/
def qle (a b : ℚ) : Bool := a.num * b.den ≤ b.num * a.den

/-- A cell value; `none` models pandas NaN / a missing value. -/
abbrev Val := Option ℚ

/-- A row of a dataframe: an association list from column name to value. -/
abbrev Row := List (String × Val)

/-- A dataframe: column names plus rows. -/
structure Table where
  cols : List String
  rows : List Row
deriving Repr, DecidableEq

/-- Value of column `c` in row `r`; an absent key reads as missing. -/
def Row.get (r : Row) (c : String) : Val :=
  match r.find? (fun p => p.1 == c) with
  | some p => p.2
  | none => none

/-- Column `c` of a table, as the list of per-row values. -/
def Table.col (t : Table) (c : String) : List Val :=
  t.rows.map (fun r => Row.get r c)

/-- Embedding of `df[cs]` (column selection by a list of labels): pandas
raises `KeyError` when any requested label is absent, modelled as `none`. -/
def Table.select (t : Table) (cs : List String) : Option Table :=
  if cs.all (fun c => t.cols.contains c) then
    some ⟨cs, t.rows.map (fun r => cs.map (fun c => (c, Row.get r c)))⟩
  else none

/-- Embedding of `df[c] = vs` for a fresh column: appends the column. -/
def Table.addCol (t : Table) (c : String) (vs : List Val) : Table :=
  ⟨t.cols ++ [c], (t.rows.zip vs).map (fun p => p.1 ++ [(c, p.2)])⟩

/-- Row-wise mean as pandas `DataFrame.mean(axis=1)` (default `skipna=True`):
missing values are dropped; the mean over an empty set of values is NaN. -/
def meanSkipna (vs : List Val) : Val :=
  let present := vs.filterMap id
  if present.isEmpty then none
  else some (qdiv (qsum present) present.length)

/-- Insert a value into a sorted list of rationals (helper for the median). -/
def insertSorted (x : ℚ) : List ℚ → List ℚ
  | [] => [x]
  | y :: ys => if qle x y then x :: y :: ys else y :: insertSorted x ys

/-- Insertion sort on rationals (kernel-reducible sorting for the median). -/
def sortRats : List ℚ → List ℚ
  | [] => []
  | x :: xs => insertSorted x (sortRats xs)

/-- Median as pandas `Series.median` (skipna): sort the present values; the
median of an even count is the mean of the two middle values; empty is NaN. -/
def medianSkipna (vs : List Val) : Val :=
  let s := sortRats (vs.filterMap id)
  match s.get? ((s.length - 1) / 2), s.get? (s.length / 2) with
  | some a, some b => some (qdiv (qadd a b) 2)
  | _, _ => none

/-- Embedding of `df.dropna(subset=cs)`: keep rows where every column of
`cs` is present.  `dropna` returns a new frame (default `inplace=False`). -/
def dropna (t : Table) (subset : List String) : Table :=
  ⟨t.cols, t.rows.filter (fun r => subset.all (fun c => (Row.get r c).isSome))⟩

/-- Columns shared by the two tables (`pd.merge` suffix rule applies to
these, minus the join keys), in left-table order. -/
def overlapCols (l r : Table) : List String :=
  l.cols.filter (fun c => r.cols.contains c)

/-- The `pd.merge` suffix rule: a column present in both tables and not a
join key gets the suffix appended; all other columns keep their name. -/
def renameCol (overlap keys : List String) (suf : String) (c : String) : String :=
  if overlap.contains c && !(keys.contains c) then c ++ suf else c

/-- Apply the suffix rule to every entry of a row. -/
def renameRow (overlap keys : List String) (suf : String) (r : Row) : Row :=
  r.map (fun p => (renameCol overlap keys suf p.1, p.2))

/-- Do two rows agree on every join-key column?  Pandas merge keys match
NaN with NaN, which `Option` equality reflects (`none == none`). -/
def rowsMatchOn (keys : List String) (a b : Row) : Bool :=
  keys.all (fun k => Row.get a k == Row.get b k)

/-- The tuple of join-key values of a row. -/
def keyTuple (keys : List String) (r : Row) : List Val :=
  keys.map (fun k => Row.get r k)

/-- The output row an inner merge builds from a matching pair: the left row
(suffix-renamed) followed by the right row minus its key columns. -/
def joinRows (overlap keys : List String) (sufL sufR : String) (a b : Row) : Row :=
  renameRow overlap keys sufL a ++
    renameRow overlap keys sufR (b.filter (fun p => !(keys.contains p.1)))

/-- Embedding of `pd.merge(l, r, on=keys, how="inner", suffixes=(sufL, sufR))`.
Pandas raises when `on` is an empty list (an empty join-key list is rejected
by the join-indexer machinery; only `on=None` means "all shared columns"),
modelled as `none`.  Otherwise the inner join pairs every left row with every
right row agreeing on all key columns, in left-major order, suffixing the
non-key columns that appear in both tables. -/
def pdMerge (l r : Table) (keys : List String) (sufL sufR : String) : Option Table :=
  if keys.isEmpty then none
  else
    let overlap := overlapCols l r
    some ⟨l.cols.map (renameCol overlap keys sufL) ++
            (r.cols.filter (fun c => !(keys.contains c))).map (renameCol overlap keys sufR),
          l.rows.flatMap (fun a =>
            (r.rows.filter (fun b => rowsMatchOn keys a b)).map
              (fun b => joinRows overlap keys sufL sufR a b))⟩

/-- Line 46: `common_ids = list(set(df_ach.columns).intersection(set(df_bg.columns)))`
(taken in left-column order; the Python set order is arbitrary, and the join
key order does not affect which rows an inner merge produces). -/
def common_ids (df_ach df_bg : Table) : List String :=
  df_ach.cols.filter (fun c => df_bg.cols.contains c)

/-- Line 47: `id_cols = [col for col in common_ids if col.startswith('ID')]`. -/
def id_cols (df_ach df_bg : Table) : List String :=
  (common_ids df_ach df_bg).filter (fun c => strStartsWith c "ID")

/-- Line 59: `math_vars = [col for col in df_ach.columns if col.startswith('BSMMAT')]`. -/
def math_vars (df_ach : Table) : List String :=
  df_ach.cols.filter (fun c => strStartsWith c "BSMMAT")

/-- Line 60: `math_vars_merged = [f"{var}_ach" for var in math_vars]`. -/
def math_vars_merged (df_ach : Table) : List String :=
  (math_vars df_ach).map (fun v => v ++ "_ach")

/-- Lines 46 to 61 (the raw-data path): inner-merge achievement and
background on the shared ID-prefixed columns, then assign
`student_data['math_score'] = student_data[math_vars_merged].mean(axis=1)`.
`none` models the path raising (empty-key merge, or `KeyError` from
selecting absent columns). -/
def studentDataRaw (df_ach df_bg : Table) : Option Table :=
  (pdMerge df_ach df_bg (id_cols df_ach df_bg) "_ach" "_bg").bind (fun merged =>
    (merged.select (math_vars_merged df_ach)).map (fun sub =>
      merged.addCol "math_score" (sub.rows.map (fun r => meanSkipna (r.map Prod.snd)))))

/-! Presentation routines (lines 75 to 318).  Each page is a pure function
from the loaded tables to the sequence of display elements it emits.
Chart and summary-table elements are descriptive leaves (their styling is
delegated to matplotlib/seaborn); metric elements carry the computed value,
with `none` for NaN (Python formats NaN as the string nan without raising).
A page returns `none` when a library call it makes raises and aborts the
render: seaborn raises when a plotted column such as `math_score` is absent
from the frame. -/

/-- A display element emitted into the render. -/
inductive Elem
  | title (s : String)
  | subheader (s : String)
  | text (s : String)
  | metricNat (label : String) (n : Nat)
  | metricVal (label : String) (v : Val)
  | chart (desc : String)
  | statsTable (desc : String)
  | warnings (s : String)
  | markdown (s : String)
deriving Repr, DecidableEq

/-- Lines 75 to 113: the Overview page.  `student_data['math_score']` raises
`KeyError` when the column is absent (modelled as `none`); the mean and
median metrics are NaN on an empty table and the histogram of an empty
column renders empty, without raising. -/
def overviewPage (d : Table) : Option (List Elem) :=
  if d.cols.contains "math_score" then
    some [Elem.title "Mathematics Performance Overview",
          Elem.metricNat "Number of Students" d.rows.length,
          Elem.metricVal "Average Math Score" (meanSkipna (d.col "math_score")),
          Elem.metricVal "Median Math Score" (medianSkipna (d.col "math_score")),
          Elem.subheader "Distribution of Math Scores",
          Elem.chart "histogram of math_score with TIMSS benchmark lines",
          Elem.markdown "TIMSS benchmarks explanation"]
  else none

/-- Lines 122 to 153: the gender section of the Student Factors page.
`gender_var` falls back from BSBG01 to ITSEX; when neither is present a
fixed warning replaces the charts.  The box plot and the grouped statistics
need `math_score` and raise when it is absent. -/
def genderSection (d : Table) : Option (List Elem) :=
  let gender_var := if d.cols.contains "BSBG01" then "BSBG01" else "ITSEX"
  if d.cols.contains gender_var then
    if d.cols.contains "math_score" then
      some [Elem.chart "pie of gender distribution",
            Elem.chart "box plot of math_score by gender",
            Elem.statsTable "mean, median, std, count of math_score by gender"]
    else none
  else
    some [Elem.warnings "Gender variable not found in the dataset"]

/-- Lines 156 to 184: the books-at-home section.  `books_var` is BSBG04 when
present, else `None` and the warning is shown.  Both charts plot
`math_score` and raise when it is absent. -/
def booksSection (d : Table) : Option (List Elem) :=
  if d.cols.contains "BSBG04" then
    if d.cols.contains "math_score" then
      some [Elem.chart "box plot of math_score by books at home",
            Elem.chart "bar chart of average math_score by books at home"]
    else none
  else
    some [Elem.warnings "Books at home variable not found in the dataset"]

/-- Lines 195 to 207: one attitude variable of the attitudes loop: a bar
chart of `math_score` by the variable, or the fixed warning. -/
def attitudeItem (d : Table) (var label : String) : Option (List Elem) :=
  if d.cols.contains var then
    if d.cols.contains "math_score" then
      some [Elem.chart ("bar chart of math_score by " ++ label)]
    else none
  else
    some [Elem.warnings (label ++ " variable not found in the dataset")]

/-- Lines 186 to 207: the attitudes section iterates over the two attitude
variables in order. -/
def attitudeSection (d : Table) : Option (List Elem) :=
  (attitudeItem d "BSBGSLM" "Student Likes Mathematics").bind (fun e1 =>
    (attitudeItem d "BSBGSCM" "Student Confident in Mathematics").map (fun e2 => e1 ++ e2))

/-- Lines 116 to 207: the Student Factors page renders the gender, books and
attitudes sections in order; a raise in one section aborts the render. -/
def studentFactorsPage (d : Table) : Option (List Elem) :=
  (genderSection d).bind (fun g =>
    (booksSection d).bind (fun b =>
      (attitudeSection d).map (fun a =>
        Elem.title "Student Background and Attitudes" ::
          Elem.subheader "Gender and Mathematics Performance" :: g ++
            Elem.subheader "Home Educational Resources" :: b ++
              Elem.subheader "Student Attitudes Toward Mathematics" :: a)))

/-- Lines 217 to 233: teaching-experience section of the Teacher page. -/
def teacherExpSection (t : Table) : List Elem :=
  if t.cols.contains "BTBG01" then
    [Elem.chart "bar chart of distribution of teaching experience"]
  else
    [Elem.warnings "Teacher experience variable not found in the dataset"]

/-- Lines 238 to 253: education-level section of the Teacher page. -/
def teacherEduSection (t : Table) : List Elem :=
  if t.cols.contains "BTBG04" then
    [Elem.chart "bar chart of teacher education levels"]
  else
    [Elem.warnings "Teacher education variable not found in the dataset"]

/-- Lines 210 to 253: the Teacher Factors page (value counts of existing
columns cannot raise, so the page is total). -/
def teacherFactorsPage (t : Table) : List Elem :=
  [Elem.title "Teacher and Instruction Factors",
   Elem.subheader "Teacher Demographics",
   Elem.text ("Number of teachers: " ++ toString t.rows.length)] ++
    teacherExpSection t ++
    [Elem.subheader "Teacher Preparation and Professional Development"] ++
    teacherEduSection t

/-- Lines 263 to 279: school-location section of the School Context page. -/
def schoolLocSection (s : Table) : List Elem :=
  if s.cols.contains "BCBG05A" then
    [Elem.chart "bar chart of schools by location"]
  else
    [Elem.warnings "School location variable not found in the dataset"]

/-- Lines 284 to 300: economic-disadvantage section. -/
def schoolEconSection (s : Table) : List Elem :=
  if s.cols.contains "BCBG03A" then
    [Elem.chart "bar chart of schools by economic disadvantage"]
  else
    [Elem.warnings "Economic disadvantage variable not found in the dataset"]

/-- Lines 302 to 318: academic-emphasis section. -/
def schoolEmphSection (s : Table) : List Elem :=
  if s.cols.contains "BCBGEAS" then
    [Elem.chart "bar chart of school emphasis on academic success"]
  else
    [Elem.warnings "School emphasis variable not found in the dataset"]

/-- Lines 256 to 318: the School Context page. -/
def schoolContextPage (s : Table) : List Elem :=
  [Elem.title "School Context Factors",
   Elem.subheader "School Demographics",
   Elem.text ("Number of schools: " ++ toString s.rows.length)] ++
    schoolLocSection s ++
    [Elem.subheader "School Composition and Climate"] ++
    schoolEconSection s ++
    schoolEmphSection s

/-- The four sidebar pages (line 34). -/
inductive Page
  | Overview
  | StudentFactors
  | TeacherFactors
  | SchoolContext
deriving Repr, DecidableEq

/-- The three loaded tables held for one render cycle. -/
structure AppState where
  student_data : Table
  teacher_data : Table
  school_data : Table
deriving Repr, DecidableEq

/-- Lines 75 to 318: page dispatch.  The selected presentation routine reads
the tables and emits display elements; the state is threaded through to make
explicit that no routine writes it (every pandas call a routine makes,
dropna, value_counts, groupby, returns a new frame). -/
def renderPage (p : Page) (st : AppState) : AppState × Option (List Elem) :=
  match p with
  | Page.Overview => (st, overviewPage st.student_data)
  | Page.StudentFactors => (st, studentFactorsPage st.student_data)
  | Page.TeacherFactors => (st, some (teacherFactorsPage st.teacher_data))
  | Page.SchoolContext => (st, some (schoolContextPage st.school_data))

/-- Achievement table of the spec scenario in section 8. -/
def achScenario : Table :=
  ⟨["ID1", "BSMMAT01", "BSMMAT02"],
   [[("ID1", some 1), ("BSMMAT01", some 500), ("BSMMAT02", some 520)],
    [("ID1", some 2), ("BSMMAT01", some 600), ("BSMMAT02", some 580)]]⟩

/-- Background table of the spec scenario in section 8. -/
def bgScenario : Table :=
  ⟨["ID1", "BSBG01"],
   [[("ID1", some 1), ("BSBG01", some 1)],
    [("ID1", some 2), ("BSBG01", some 2)]]⟩

/-! Loader (lines 16 to 30) and the data-selection checks (lines 37 to 72).
The filesystem is an association list from path to what reading the file
would do: parse into a table, or raise (unreadable/corrupt file).  An absent
path models a file that does not exist. -/

/-- What an attempt to read an existing file does. -/
inductive ReadOutcome
  | ok (t : Table)
  | corrupt
deriving Repr, DecidableEq

/-- A filesystem: paths mapped to read outcomes; absent paths do not exist. -/
abbrev FSys := List (String × ReadOutcome)

/-- Look up a path in the filesystem. -/
def FSys.lookup (fs : FSys) (p : String) : Option ReadOutcome :=
  (fs.find? (fun q => q.1 == p)).map (fun q => q.2)

/-- Embedding of `os.path.exists`. -/
def os_path_exists (fs : FSys) (p : String) : Bool :=
  (FSys.lookup fs p).isSome

/-- Result of a Python expression: a returned value or a raised exception. -/
inductive PyResult (α : Type)
  | ret (a : α)
  | exn (msg : String)
deriving Repr, DecidableEq

/-- Embedding of `pd.read_csv(path)`: a missing file raises
`FileNotFoundError`; an unreadable file raises a parse error. -/
def read_csv (fs : FSys) (path : String) : PyResult Table :=
  match FSys.lookup fs path with
  | some (ReadOutcome.ok t) => PyResult.ret t
  | some ReadOutcome.corrupt => PyResult.exn "parse error"
  | none => PyResult.exn "FileNotFoundError"

/-- Embedding of `pyreadstat.read_sav(path)` (same failure model). -/
def read_sav (fs : FSys) (path : String) : PyResult Table :=
  read_csv fs path

/-- Return value of `load_data` together with whether an `st.error` message
was shown to the user. -/
structure LoadResult where
  val : Option Table
  reported : Bool
deriving Repr, DecidableEq

/-- Body of `load_data` (lines 18 to 27), before the `try`/`except`:
a CSV path is read as CSV; otherwise, if the `.sav` sibling exists it is
read with pyreadstat; otherwise an error is shown and `None` returned. -/
def load_data_body (fs : FSys) (file_path : String) : PyResult LoadResult :=
  if strEndsWith file_path ".csv" then
    match read_csv fs file_path with
    | PyResult.ret t => PyResult.ret ⟨some t, false⟩
    | PyResult.exn m => PyResult.exn m
  else if os_path_exists fs (strReplace file_path ".csv" ".sav") then
    match read_sav fs (strReplace file_path ".csv" ".sav") with
    | PyResult.ret t => PyResult.ret ⟨some t, false⟩
    | PyResult.exn m => PyResult.exn m
  else
    PyResult.ret ⟨none, true⟩

/-- Lines 16 to 30: `load_data`, with the `try`/`except` that catches any
exception, shows `st.error` and returns `None`. -/
def load_data (fs : FSys) (file_path : String) : LoadResult :=
  match load_data_body fs file_path with
  | PyResult.ret r => r
  | PyResult.exn _ => ⟨none, true⟩

/-- Lines 37 to 61: the student table.  If the processed CSV exists it is
loaded as is (no composite score is computed); otherwise the two SPSS files
are loaded and merged by the raw path.  In the raw path, a `None` from
`load_data` crashes at the `.columns` access, and a failing merge or column
selection raises; both are `PyResult.exn`. -/
def student_data (fs : FSys) : PyResult (Option Table) :=
  if os_path_exists fs "../data/processed_student_data.csv" then
    PyResult.ret (load_data fs "../data/processed_student_data.csv").val
  else
    match (load_data fs "../orig/SPSS/bsairlm8.sav").val,
          (load_data fs "../orig/SPSS/bsgirlm8.sav").val with
    | some df_ach, some df_bg =>
      match studentDataRaw df_ach df_bg with
      | some t => PyResult.ret (some t)
      | none => PyResult.exn "merge or column selection raised"
    | _, _ => PyResult.exn "AttributeError: NoneType has no attribute columns"

/-- Lines 64 to 67: the teacher table. -/
def teacher_data (fs : FSys) : LoadResult :=
  if os_path_exists fs "../data/teacher_data.csv" then
    load_data fs "../data/teacher_data.csv"
  else
    load_data fs "../orig/SPSS/btmirlm8.sav"

/-- Lines 69 to 72: the school table. -/
def school_data (fs : FSys) : LoadResult :=
  if os_path_exists fs "../data/school_data.csv" then
    load_data fs "../data/school_data.csv"
  else
    load_data fs "../orig/SPSS/bcgirlm8.sav"

/-- The table `pd.merge` produces on the section-8 scenario. -/
def mergedScenario : Table :=
  ⟨["ID1", "BSMMAT01", "BSMMAT02", "BSBG01"],
   [[("ID1", some 1), ("BSMMAT01", some 500), ("BSMMAT02", some 520), ("BSBG01", some 1)],
    [("ID1", some 2), ("BSMMAT01", some 600), ("BSMMAT02", some 580), ("BSBG01", some 2)]]⟩

/-- Achievement table with a duplicated identifier value (two rows share
`ID1 = 1`). -/
def achDup : Table :=
  ⟨["ID1"], [[("ID1", some 1)], [("ID1", some 1)]]⟩

/-- Background table with the same duplicated identifier value. -/
def bgDup : Table :=
  ⟨["ID1", "XCOL"],
   [[("ID1", some 1), ("XCOL", some 1)], [("ID1", some 1), ("XCOL", some 2)]]⟩

/-- Achievement table sharing only a non-identifier column with `bgNoId`. -/
def achNoId : Table :=
  ⟨["XCOL", "BSMMAT01"], [[("XCOL", some 1), ("BSMMAT01", some 500)]]⟩

/-- Background table sharing only a non-identifier column with `achNoId`. -/
def bgNoId : Table :=
  ⟨["XCOL", "BSBG01"], [[("XCOL", some 1), ("BSBG01", some 1)]]⟩

/-- Achievement table with no item-score (BSMMAT-prefixed) column. -/
def achNoMath : Table :=
  ⟨["ID1", "XCOL"],
   [[("ID1", some 1), ("XCOL", some 3)], [("ID1", some 2), ("XCOL", some 4)]]⟩

/-- Background table to merge with `achNoMath`. -/
def bgNoMath : Table :=
  ⟨["ID1", "BSBG01"],
   [[("ID1", some 1), ("BSBG01", some 1)], [("ID1", some 2), ("BSBG01", some 2)]]⟩

/-- An empty student table that does have a `math_score` column. -/
def emptyMathTable : Table := ⟨["math_score"], []⟩

/-- A table with no columns at all. -/
def noColsTable : Table := ⟨[], []⟩

/-- A processed student CSV lacking the `math_score` column but holding a
gender column. -/
def csvNoMath : Table := ⟨["ID1", "BSBG01"], [[("ID1", some 1), ("BSBG01", some 1)]]⟩

/-- A filesystem where the teacher CSV parses and the school CSV exists. -/
def fsTeacherCsv : FSys :=
  [("../data/teacher_data.csv", ReadOutcome.ok emptyMathTable),
   ("../data/school_data.csv", ReadOutcome.ok noColsTable)]

/-- A filesystem where only the processed student CSV exists, and it lacks
`math_score`. -/
def fsProcessedNoMath : FSys :=
  [("../data/processed_student_data.csv", ReadOutcome.ok csvNoMath)]

/-! Helper lemmas. -/

/-- The reducible addition agrees with rational addition. -/
theorem qadd_eq (a b : ℚ) : qadd a b = a + b := (Rat.add_def' a b).symm

/-- The reducible sum agrees with `List.sum`. -/
theorem qsum_eq (l : List ℚ) : qsum l = l.sum := by
  induction l with
  | nil => rfl
  | cons x xs ih => simp [qsum, List.foldr_cons, qadd_eq] at ih ⊢; rw [ih]

/-- The reducible division by a natural number agrees with `/`. -/
theorem qdiv_eq (a : ℚ) (n : Nat) : qdiv a n = a / n := by
  rw [qdiv, Rat.mkRat_eq_divInt, Rat.divInt_eq_div]
  push_cast
  rw [div_mul_eq_div_div, Rat.num_div_den]

/-- If every entry is present, `filterMap id` keeps the whole length. -/
theorem filterMap_id_length (vs : List Val) (h : ∀ v ∈ vs, v.isSome) :
    (vs.filterMap id).length = vs.length := by
  induction vs with
  | nil => rfl
  | cons v vs ih =>
    rcases v with _ | a
    · exact absurd (h none (List.mem_cons_self _ _)) (by simp)
    · simp only [List.filterMap_cons, id, List.length_cons]
      rw [ih (fun x hx => h x (List.mem_cons_of_mem _ hx))]

/-- Mapping two functions over a list gives the same list iff they agree on
every element. -/
theorem map_eq_map_iff_forall {α β : Type} (f g : α → β) (l : List α) :
    l.map f = l.map g ↔ ∀ x ∈ l, f x = g x := by
  induction l with
  | nil => simp
  | cons x xs ih => simp [ih]

/-- Two rows match on the join keys iff their key tuples are equal. -/
theorem rowsMatchOn_iff (keys : List String) (a b : Row) :
    rowsMatchOn keys a b = true ↔ keyTuple keys a = keyTuple keys b := by
  rw [rowsMatchOn, keyTuple, keyTuple, List.all_eq_true, map_eq_map_iff_forall]
  constructor
  · intro h k hk
    exact eq_of_beq (h k hk)
  · intro h k hk
    exact beq_of_eq (h k hk)

/-- A sum of zeros is zero. -/
theorem sum_map_zero {β : Type} (r : List β) : (r.map (fun _ => (0 : Nat))).sum = 0 := by
  induction r with
  | nil => rfl
  | cons x xs ih => simp [ih]

/-- Sums of pointwise sums split. -/
theorem sum_map_add {β : Type} (r : List β) (f g : β → Nat) :
    (r.map (fun b => f b + g b)).sum = (r.map f).sum + (r.map g).sum := by
  induction r with
  | nil => rfl
  | cons x xs ih => simp [ih]; omega

/-- A sum of indicator values counts the elements satisfying the predicate. -/
theorem sum_map_indicator {β : Type} (r : List β) (p : β → Bool) :
    (r.map (fun b => if p b then 1 else 0)).sum = (r.filter p).length := by
  induction r with
  | nil => rfl
  | cons x xs ih =>
    by_cases h : p x
    · simp [List.filter_cons, h, ih]; omega
    · simp [List.filter_cons, h, ih]

/-- Double counting of matching pairs: summing match counts over the left
list equals summing them over the right list. -/
theorem sum_count_swap {α β : Type} (P : α → β → Bool) (l : List α) (r : List β) :
    (l.map (fun a => (r.filter (fun b => P a b)).length)).sum
      = (r.map (fun b => (l.filter (fun a => P a b)).length)).sum := by
  induction l with
  | nil => simp [List.filter_nil, sum_map_zero]
  | cons x xs ih =>
    have hsplit : ∀ b, ((x :: xs).filter (fun a => P a b)).length
        = (if P x b then 1 else 0) + (xs.filter (fun a => P a b)).length := by
      intro b
      by_cases h : P x b
      · simp [List.filter_cons, h]
        omega
      · simp [List.filter_cons, h]
    calc ((x :: xs).map (fun a => (r.filter (fun b => P a b)).length)).sum
        = (r.filter (fun b => P x b)).length
            + (xs.map (fun a => (r.filter (fun b => P a b)).length)).sum := by
          simp
      _ = (r.map (fun b => if P x b then 1 else 0)).sum
            + (r.map (fun b => (xs.filter (fun a => P a b)).length)).sum := by
          rw [sum_map_indicator, ih]
      _ = (r.map (fun b => (if P x b then 1 else 0)
            + (xs.filter (fun a => P a b)).length)).sum := by
          rw [sum_map_add]
      _ = (r.map (fun b => ((x :: xs).filter (fun a => P a b)).length)).sum := by
          congr 1
          exact (map_eq_map_iff_forall _ _ r).mpr (fun b _ => (hsplit b).symm)

/-- If the images of the list are distinct and the predicate forces a single
image, at most one element passes the filter. -/
theorem filter_length_le_one {α β : Type} (f : α → β) (p : α → Bool) (l : List α)
    (hnd : (l.map f).Nodup) (hp : ∀ x y, p x = true → p y = true → f x = f y) :
    (l.filter p).length ≤ 1 := by
  induction l with
  | nil => simp
  | cons x xs ih =>
    rw [List.map_cons, List.nodup_cons] at hnd
    obtain ⟨hx, hxs⟩ := hnd
    by_cases h : p x
    · rw [List.filter_cons_of_pos h]
      have hnil : xs.filter p = [] := by
        rw [List.filter_eq_nil_iff]
        intro y hy hpy
        exact hx (List.mem_map.mpr ⟨y, hy, (hp y x hpy h).symm ▸ rfl⟩)
      simp [hnil]
    · rw [List.filter_cons_of_neg h]
      exact ih hxs

/-- A sum of values that are each at most one is at most the length. -/
theorem sum_map_le_length {α : Type} (l : List α) (f : α → Nat)
    (h : ∀ a ∈ l, f a ≤ 1) : (l.map f).sum ≤ l.length := by
  induction l with
  | nil => simp
  | cons x xs ih =>
    simp only [List.map_cons, List.sum_cons, List.length_cons]
    have h1 := h x (List.mem_cons_self _ _)
    have h2 := ih (fun a ha => h a (List.mem_cons_of_mem _ ha))
    omega

/-! Claim theorems. -/

/-- C1: on the section-8 scenario (achievement `ID1, BSMMAT01, BSMMAT02`
rows `(1, 500, 520)` and `(2, 600, 580)`, background `ID1, BSBG01` rows
`(1, 1)` and `(2, 2)`), the raw-data path does not produce the composite
scores 510 and 590: the merge succeeds without suffixing any column (the
BSMMAT columns are only in the achievement table, so the merged columns are
the unsuffixed `ID1, BSMMAT01, BSMMAT02, BSBG01`), hence the selection of
`BSMMAT01_ach, BSMMAT02_ach` raises `KeyError` and the whole path fails.
Averaging the BSMMAT columns the merged table actually has gives 510 and
590, so those values are the clear intent and the suffix hard-coding the
slip. -/
theorem c1_raw_merge_scenario :
    studentDataRaw achScenario bgScenario = none ∧
    math_vars_merged achScenario = ["BSMMAT01_ach", "BSMMAT02_ach"] ∧
    (pdMerge achScenario bgScenario (id_cols achScenario bgScenario) "_ach" "_bg").map
        (fun m => m.cols) = some ["ID1", "BSMMAT01", "BSMMAT02", "BSBG01"] ∧
    (pdMerge achScenario bgScenario (id_cols achScenario bgScenario) "_ach" "_bg").bind
        (fun m => (m.select (math_vars achScenario)).map
          (fun sub => sub.rows.map (fun r => meanSkipna (r.map Prod.snd)))) =
      some [some 510, some 590] := by
  refine ⟨by decide, by decide, by decide, by decide⟩

/-- C2: the composite of a row whose item scores are all present is the
arithmetic mean of those scores; a row with no present item score gets a
missing composite (never zero); the composite is defined iff at least one
item score is present.  `meanSkipna` is the embedding of the
`DataFrame.mean(axis=1)` call that builds `math_score` at line 61. -/
theorem c2_composite_mean_rule (vs : List Val) :
    ((∀ v ∈ vs, v.isSome) → vs ≠ [] →
      meanSkipna vs = some ((vs.filterMap id).sum / (vs.length : ℚ))) ∧
    ((∀ v ∈ vs, v = none) → meanSkipna vs = none) ∧
    ((meanSkipna vs).isSome ↔ ∃ v ∈ vs, v.isSome) := by
  refine ⟨?_, ?_, ?_⟩
  · intro hall hne
    have hlen : (vs.filterMap id).length = vs.length := filterMap_id_length vs hall
    have hempty : (vs.filterMap id).isEmpty = false := by
      rcases h : vs.filterMap id with _ | ⟨a, l⟩
      · rw [h] at hlen
        exact absurd (List.length_eq_zero.mp hlen.symm) hne
      · rfl
    simp only [meanSkipna, hempty, Bool.false_eq_true, if_false]
    rw [qdiv_eq, qsum_eq, hlen]
  · intro hnone
    have h : vs.filterMap id = [] := by
      rw [List.filterMap_eq_nil_iff]
      intro a ha
      exact hnone a ha
    simp [meanSkipna, h]
  · simp only [meanSkipna]
    rcases h : vs.filterMap id with _ | ⟨a, l⟩
    · simp only [List.isEmpty_nil, if_true, Option.isSome_none, Bool.false_eq_true,
        false_iff]
      rw [List.filterMap_eq_nil_iff] at h
      rintro ⟨v, hv, hsome⟩
      have hvn : v = none := h v hv
      rw [hvn] at hsome
      simp at hsome
    · simp only [List.isEmpty_cons, if_false, Option.isSome_some, Bool.false_eq_true,
        true_iff]
      have : a ∈ vs.filterMap id := by rw [h]; exact List.mem_cons_self _ _
      rcases List.mem_filterMap.mp this with ⟨v, hv, hva⟩
      have hv2 : v = some a := hva
      exact ⟨v, hv, by rw [hv2]; rfl⟩

/-- C2 witness: rows with both item scores present and with none present. -/
theorem c2_composite_mean_rule_witness :
    meanSkipna [some 500, some 520]
        = some ((([some 500, some 520] : List Val).filterMap id).sum / (2 : ℚ)) ∧
    meanSkipna [none, none] = none :=
  ⟨(c2_composite_mean_rule [some 500, some 520]).1 (by decide) (by decide),
   (c2_composite_mean_rule [none, none]).2.1 (by decide)⟩

/-- C3 counterexample: with the identifier value `ID1 = 1` duplicated on
both sides, the inner merge on the shared identifier column produces four
rows, exceeding `min 2 2`: the claimed bound is false without a uniqueness
assumption. -/
theorem c3_duplicate_keys_counterexample :
    id_cols achDup bgDup = ["ID1"] ∧
    (pdMerge achDup bgDup (id_cols achDup bgDup) "_ach" "_bg").map
        (fun m => m.rows.length) = some 4 ∧
    achDup.rows.length = 2 ∧ bgDup.rows.length = 2 ∧ ¬(4 ≤ min 2 2) := by
  refine ⟨by decide, by decide, by decide, by decide, by decide⟩

/-- C3 amended: when the shared identifier columns are non-empty and the
identifier-key tuples are duplicate-free within each input table, the inner
merge on those columns has at most `min` of the input row counts many rows;
and (unconditionally) every output row is built from a pair of one
achievement row and one background row agreeing on all identifier
columns. -/
theorem c3_merge_bound_amended (l r m : Table)
    (hk : id_cols l r ≠ [])
    (hm : pdMerge l r (id_cols l r) "_ach" "_bg" = some m) :
    ((l.rows.map (keyTuple (id_cols l r))).Nodup →
      (r.rows.map (keyTuple (id_cols l r))).Nodup →
      m.rows.length ≤ min l.rows.length r.rows.length) ∧
    ∀ row ∈ m.rows, ∃ a ∈ l.rows, ∃ b ∈ r.rows,
      keyTuple (id_cols l r) a = keyTuple (id_cols l r) b ∧
      row = joinRows (overlapCols l r) (id_cols l r) "_ach" "_bg" a b := by
  have hke : (id_cols l r).isEmpty = false := by
    rcases h : id_cols l r with _ | ⟨k, ks⟩
    · exact absurd h hk
    · rfl
  rw [pdMerge, hke] at hm
  simp only [Bool.false_eq_true, if_false, Option.some.injEq] at hm
  have hrows : m.rows = l.rows.flatMap (fun a =>
      (r.rows.filter (fun b => rowsMatchOn (id_cols l r) a b)).map
        (fun b => joinRows (overlapCols l r) (id_cols l r) "_ach" "_bg" a b)) := by
    rw [← hm]
  constructor
  · intro hl hr
    have hlen : m.rows.length
        = (l.rows.map (fun a =>
            (r.rows.filter (fun b => rowsMatchOn (id_cols l r) a b)).length)).sum := by
      rw [hrows, List.length_flatMap]
      congr 1
      exact (map_eq_map_iff_forall _ _ _).mpr (fun a _ => List.length_map _ _)
    refine le_min ?_ ?_
    · rw [hlen]
      apply sum_map_le_length
      intro a _
      apply filter_length_le_one (keyTuple (id_cols l r)) _ _ hr
      intro x y hx hy
      rw [rowsMatchOn_iff] at hx hy
      rw [← hx, ← hy]
    · rw [hlen, sum_count_swap]
      apply sum_map_le_length
      intro b _
      apply filter_length_le_one (keyTuple (id_cols l r)) _ _ hl
      intro x y hx hy
      rw [rowsMatchOn_iff] at hx hy
      rw [hx, hy]
  · intro row hrow
    rw [hrows] at hrow
    rcases List.mem_flatMap.mp hrow with ⟨a, ha, hmem⟩
    rcases List.mem_map.mp hmem with ⟨b, hbf, hjoin⟩
    rcases List.mem_filter.mp hbf with ⟨hb, hmatch⟩
    exact ⟨a, ha, b, hb, (rowsMatchOn_iff _ _ _).mp hmatch, hjoin.symm⟩

/-- C3 witness: the section-8 scenario tables have unique identifier keys,
and the merged table indeed has at most `min 2 2` rows. -/
theorem c3_merge_bound_amended_witness :
    mergedScenario.rows.length ≤ min achScenario.rows.length bgScenario.rows.length :=
  (c3_merge_bound_amended achScenario bgScenario mergedScenario
    (by decide) (by decide)).1 (by decide) (by decide)

/-- C4 counterexample: two tables sharing only the non-identifier column
`XCOL`: the computed identifier key list is empty, and the code's merge call
with that empty key list raises (modelled `none`) instead of degrading to
the all-shared-columns join, which would have succeeded. -/
theorem c4_no_id_cols_counterexample :
    id_cols achNoId bgNoId = [] ∧
    common_ids achNoId bgNoId = ["XCOL"] ∧
    pdMerge achNoId bgNoId (id_cols achNoId bgNoId) "_ach" "_bg" = none ∧
    (pdMerge achNoId bgNoId (common_ids achNoId bgNoId) "_ach" "_bg").isSome = true := by
  refine ⟨by decide, by decide, by decide, by decide⟩

/-- C4 amended: with zero shared identifier-prefixed columns the merge is
called with an empty join-key list, which pandas rejects with an error that
aborts the render; the code does not fall back to an all-columns join. -/
theorem c4_empty_key_merge_raises (l r : Table) (h : id_cols l r = []) :
    pdMerge l r (id_cols l r) "_ach" "_bg" = none := by
  rw [h]
  rfl

/-- C4 witness: the amended statement at the concrete tables. -/
theorem c4_empty_key_merge_raises_witness :
    pdMerge achNoId bgNoId (id_cols achNoId bgNoId) "_ach" "_bg" = none :=
  c4_empty_key_merge_raises achNoId bgNoId (by decide)

/-- C5: with zero item-score columns the raw path does not fail loudly: the
merge and the (empty) column selection succeed and every row silently gets
a missing (NaN) composite score. -/
theorem c5_zero_item_columns_silent_nan :
    math_vars achNoMath = [] ∧
    (studentDataRaw achNoMath bgNoMath).map (fun t => t.rows.length) = some 2 ∧
    (studentDataRaw achNoMath bgNoMath).map (fun t => t.col "math_score")
      = some [none, none] := by
  refine ⟨by decide, by decide, by decide⟩

/-- Bridge from the boolean `contains` to membership. -/
theorem mem_of_contains_true {l : List String} {a : String}
    (h : l.contains a = true) : a ∈ l := by
  simpa using h

/-- Bridge from a false `contains` to non-membership. -/
theorem not_mem_of_contains_false {l : List String} {a : String}
    (h : l.contains a = false) : a ∉ l := by
  simpa using h

/-- C6: for every filesystem and path, `load_data` either returns a table
(with no error shown) or shows a user-visible error and returns `None`; any
exception of the body is caught and turned into that reported `None`; and
the surrounding existence checks prefer the flat CSV when it exists,
otherwise the statistical-package source is attempted. -/
theorem c6_loader_contract (fs : FSys) (path : String) :
    ((∃ t, load_data fs path = ⟨some t, false⟩) ∨ load_data fs path = ⟨none, true⟩) ∧
    (∀ m, load_data_body fs path = PyResult.exn m → load_data fs path = ⟨none, true⟩) ∧
    (os_path_exists fs "../data/teacher_data.csv" = true →
      teacher_data fs = load_data fs "../data/teacher_data.csv") ∧
    (os_path_exists fs "../data/teacher_data.csv" = false →
      teacher_data fs = load_data fs "../orig/SPSS/btmirlm8.sav") ∧
    (os_path_exists fs "../data/school_data.csv" = true →
      school_data fs = load_data fs "../data/school_data.csv") ∧
    (os_path_exists fs "../data/school_data.csv" = false →
      school_data fs = load_data fs "../orig/SPSS/bcgirlm8.sav") := by
  refine ⟨?_, ?_, ?_, ?_, ?_, ?_⟩
  · rw [load_data, load_data_body]
    by_cases hcsv : strEndsWith path ".csv"
    · simp only [hcsv, if_true]
      rcases read_csv fs path with t | m
      · exact Or.inl ⟨t, rfl⟩
      · exact Or.inr rfl
    · simp only [hcsv, Bool.false_eq_true, if_false]
      by_cases hsav : os_path_exists fs (strReplace path ".csv" ".sav")
      · simp only [hsav, if_true]
        rcases read_sav fs (strReplace path ".csv" ".sav") with t | m
        · exact Or.inl ⟨t, rfl⟩
        · exact Or.inr rfl
      · simp only [hsav, Bool.false_eq_true, if_false]
        exact Or.inr trivial
  · intro m hm
    rw [load_data, hm]
  · intro h
    rw [teacher_data, h]
    rfl
  · intro h
    rw [teacher_data, h]
    rfl
  · intro h
    rw [school_data, h]
    rfl
  · intro h
    rw [school_data, h]
    rfl

/-- C6 witness: a filesystem holding the teacher and school CSVs takes the
CSV branch for both, and on an empty filesystem a CSV path raises
`FileNotFoundError` in the body, which is caught and reported. -/
theorem c6_loader_contract_witness :
    teacher_data fsTeacherCsv = load_data fsTeacherCsv "../data/teacher_data.csv" ∧
    school_data fsTeacherCsv = load_data fsTeacherCsv "../data/school_data.csv" ∧
    load_data [] "x.csv" = ⟨none, true⟩ :=
  ⟨(c6_loader_contract fsTeacherCsv "p").2.2.1 (by decide),
   (c6_loader_contract fsTeacherCsv "p").2.2.2.2.1 (by decide),
   (c6_loader_contract [] "x.csv").2.1 "FileNotFoundError" (by decide)⟩

/-- C7: for every page, a section whose expected variable is absent (after
the documented BSBG01-to-ITSEX fallback for gender) renders its fixed
warning in place of the charts, and the page-assembly equations show every
other section is still rendered in sequence. -/
theorem c7_missing_variable_fallback (d t s : Table) :
    (d.cols.contains "BSBG01" = false → d.cols.contains "ITSEX" = false →
      genderSection d = some [Elem.warnings "Gender variable not found in the dataset"]) ∧
    (d.cols.contains "BSBG04" = false →
      booksSection d = some [Elem.warnings "Books at home variable not found in the dataset"]) ∧
    (d.cols.contains "BSBGSLM" = false →
      attitudeItem d "BSBGSLM" "Student Likes Mathematics"
        = some [Elem.warnings "Student Likes Mathematics variable not found in the dataset"]) ∧
    (d.cols.contains "BSBGSCM" = false →
      attitudeItem d "BSBGSCM" "Student Confident in Mathematics"
        = some [Elem.warnings
            "Student Confident in Mathematics variable not found in the dataset"]) ∧
    (studentFactorsPage d = (genderSection d).bind (fun g =>
      (booksSection d).bind (fun b =>
        (attitudeSection d).map (fun a =>
          Elem.title "Student Background and Attitudes" ::
            Elem.subheader "Gender and Mathematics Performance" :: g ++
              Elem.subheader "Home Educational Resources" :: b ++
                Elem.subheader "Student Attitudes Toward Mathematics" :: a)))) ∧
    (t.cols.contains "BTBG01" = false →
      teacherExpSection t
        = [Elem.warnings "Teacher experience variable not found in the dataset"]) ∧
    (t.cols.contains "BTBG04" = false →
      teacherEduSection t
        = [Elem.warnings "Teacher education variable not found in the dataset"]) ∧
    (teacherFactorsPage t = [Elem.title "Teacher and Instruction Factors",
        Elem.subheader "Teacher Demographics",
        Elem.text ("Number of teachers: " ++ toString t.rows.length)] ++
      teacherExpSection t ++
      [Elem.subheader "Teacher Preparation and Professional Development"] ++
      teacherEduSection t) ∧
    (s.cols.contains "BCBG05A" = false →
      schoolLocSection s
        = [Elem.warnings "School location variable not found in the dataset"]) ∧
    (s.cols.contains "BCBG03A" = false →
      schoolEconSection s
        = [Elem.warnings "Economic disadvantage variable not found in the dataset"]) ∧
    (s.cols.contains "BCBGEAS" = false →
      schoolEmphSection s
        = [Elem.warnings "School emphasis variable not found in the dataset"]) ∧
    (schoolContextPage s = [Elem.title "School Context Factors",
        Elem.subheader "School Demographics",
        Elem.text ("Number of schools: " ++ toString s.rows.length)] ++
      schoolLocSection s ++
      [Elem.subheader "School Composition and Climate"] ++
      schoolEconSection s ++
      schoolEmphSection s) := by
  refine ⟨?_, ?_, ?_, ?_, rfl, ?_, ?_, rfl, ?_, ?_, ?_, rfl⟩
  · intro h1 h2
    simp [genderSection, not_mem_of_contains_false h1, not_mem_of_contains_false h2]
  · intro h
    simp [booksSection, not_mem_of_contains_false h]
  · intro h
    simp [attitudeItem, not_mem_of_contains_false h]
  · intro h
    simp [attitudeItem, not_mem_of_contains_false h]
  · intro h
    simp [teacherExpSection, not_mem_of_contains_false h]
  · intro h
    simp [teacherEduSection, not_mem_of_contains_false h]
  · intro h
    simp [schoolLocSection, not_mem_of_contains_false h]
  · intro h
    simp [schoolEconSection, not_mem_of_contains_false h]
  · intro h
    simp [schoolEmphSection, not_mem_of_contains_false h]

/-- C7 witness: on a table with no columns every section falls back to its
warning, and the Student Factors page still renders all of them. -/
theorem c7_missing_variable_fallback_witness :
    genderSection noColsTable
        = some [Elem.warnings "Gender variable not found in the dataset"] ∧
    booksSection noColsTable
        = some [Elem.warnings "Books at home variable not found in the dataset"] ∧
    teacherExpSection noColsTable
        = [Elem.warnings "Teacher experience variable not found in the dataset"] ∧
    schoolLocSection noColsTable
        = [Elem.warnings "School location variable not found in the dataset"] :=
  ⟨(c7_missing_variable_fallback noColsTable noColsTable noColsTable).1 (by decide) (by decide),
   (c7_missing_variable_fallback noColsTable noColsTable noColsTable).2.1 (by decide),
   (c7_missing_variable_fallback noColsTable noColsTable noColsTable).2.2.2.2.2.1 (by decide),
   (c7_missing_variable_fallback noColsTable noColsTable noColsTable).2.2.2.2.2.2.2.2.1
     (by decide)⟩

/-- C8: rendering the Overview page on an empty table that has a
`math_score` column completes without raising, reporting a count of zero
and missing (NaN) mean and median metrics. -/
theorem c8_overview_empty_table (d : Table) (h0 : d.rows = [])
    (hc : d.cols.contains "math_score" = true) :
    overviewPage d = some [Elem.title "Mathematics Performance Overview",
      Elem.metricNat "Number of Students" 0,
      Elem.metricVal "Average Math Score" none,
      Elem.metricVal "Median Math Score" none,
      Elem.subheader "Distribution of Math Scores",
      Elem.chart "histogram of math_score with TIMSS benchmark lines",
      Elem.markdown "TIMSS benchmarks explanation"] := by
  simp [overviewPage, mem_of_contains_true hc, Table.col, h0, meanSkipna,
    medianSkipna, sortRats]

/-- C8 witness: the empty table with only the `math_score` column. -/
theorem c8_overview_empty_table_witness :
    overviewPage emptyMathTable = some [Elem.title "Mathematics Performance Overview",
      Elem.metricNat "Number of Students" 0,
      Elem.metricVal "Average Math Score" none,
      Elem.metricVal "Median Math Score" none,
      Elem.subheader "Distribution of Math Scores",
      Elem.chart "histogram of math_score with TIMSS benchmark lines",
      Elem.markdown "TIMSS benchmarks explanation"] :=
  c8_overview_empty_table emptyMathTable rfl (by decide)

/-- C9: dispatching any page leaves the three loaded tables unchanged, and
re-rendering the same page on the resulting state emits the same elements
(idempotence); every routine reads only the threaded state. -/
theorem c9_render_preserves_tables (p : Page) (st : AppState) :
    (renderPage p st).1 = st ∧
    renderPage p ((renderPage p st).1) = renderPage p st := by
  cases p <;> exact ⟨rfl, rfl⟩

/-- C10: when the processed CSV exists the student table is exactly what
`load_data` returns for it (no composite score is computed), so a CSV
without a `math_score` column makes the Overview page raise at its
`math_score` access, and makes the Student Factors page raise as soon as a
gender variable is present to reach the `math_score` plots. -/
theorem c10_csv_path_requires_math_score (fs : FSys) (d : Table) :
    (os_path_exists fs "../data/processed_student_data.csv" = true →
      student_data fs
        = PyResult.ret (load_data fs "../data/processed_student_data.csv").val) ∧
    (d.cols.contains "math_score" = false → overviewPage d = none) ∧
    (d.cols.contains "math_score" = false →
      (d.cols.contains "BSBG01" = true ∨ d.cols.contains "ITSEX" = true) →
      studentFactorsPage d = none) := by
  refine ⟨?_, ?_, ?_⟩
  · intro h
    rw [student_data, h]
    rfl
  · intro h
    simp [overviewPage, not_mem_of_contains_false h]
  · intro h hg
    have hgender : genderSection d = none := by
      rcases hb : d.cols.contains "BSBG01" with _ | _
      · rcases hg with hg | hg
        · rw [hb] at hg
          exact absurd hg (by simp)
        · simp [genderSection, not_mem_of_contains_false hb, mem_of_contains_true hg,
            not_mem_of_contains_false h]
      · simp [genderSection, mem_of_contains_true hb, not_mem_of_contains_false h]
    simp [studentFactorsPage, hgender]

/-- C10 witness: a filesystem holding only a processed CSV whose table has a
gender column but no `math_score`: the CSV branch is taken unchanged and
both pages fail on that table. -/
theorem c10_csv_path_requires_math_score_witness :
    student_data fsProcessedNoMath
        = PyResult.ret (load_data fsProcessedNoMath "../data/processed_student_data.csv").val ∧
    overviewPage csvNoMath = none ∧
    studentFactorsPage csvNoMath = none :=
  ⟨(c10_csv_path_requires_math_score fsProcessedNoMath csvNoMath).1 (by decide),
   (c10_csv_path_requires_math_score fsProcessedNoMath csvNoMath).2.1 (by decide),
   (c10_csv_path_requires_math_score fsProcessedNoMath csvNoMath).2.2 (by decide)
     (Or.inl (by decide))⟩
